import Mathlib

/-!
Shallow embedding of `generate_yukkuri.py`, a single-file pipeline that
synthesizes speech through a local VOICEVOX HTTP service and muxes it with a
background image (and an optional character overlay) via an external ffmpeg
invocation.  Paths and URLs are modelled as plain strings; the filesystem,
network and subprocess layer are modelled by an explicit `World` of outcomes,
and the script's observable behaviour (exit code and the ordered trace of its
side effects) is computed from it.  The urllib3 `Retry` machinery that
`make_session` configures is embedded from the library source
(urllib3 1.26, `util/retry.py` and the retry loop of
`connectionpool.urlopen`) because the retry claims are decided there.
-/

namespace Yukkuri

/-- The compositing filter string built at line 79 of the script when a
character overlay is present: overlay pinned 10 px from the bottom-right
corner, then conversion to the `yuv420p` pixel format. -/
def overlay_filter : String := "[0:v][1:v] overlay=W-w-10:H-h-10,format=yuv420p"

/-- Embeds `build_ffmpeg_cmd` (lines 67-91): builds the ffmpeg argument vector.
`char_path = none` models Python's `char_path=None` default; paths are their
string renderings. -/
def build_ffmpeg_cmd (ffmpeg_cmd : String) (bg_path : String) (audio_path : String)
    (out_path : String) (char_path : Option String := none) : List String :=
  let cmd := [ffmpeg_cmd, "-y", "-loop", "1", "-i", bg_path]
  let cmd := cmd ++ (match char_path with
    | some c => ["-i", c]
    | none => [])
  let cmd := cmd ++ ["-i", audio_path]
  let cmd := cmd ++ (match char_path with
    | some _ => ["-filter_complex", overlay_filter]
    | none => ["-vf", "format=yuv420p"])
  cmd ++ ["-c:v", "libx264", "-c:a", "aac", "-b:a", "192k", "-shortest", out_path]

/-- Embeds `get_wav_duration_seconds` (lines 56-60) after the `wave` module has read
the header: `frames / float(rate)`.  The two sample points of the spec
(44100/44100 and 22050/44100) are exact in binary floating point, so the
rational value models the float result exactly there. -/
def get_wav_duration_seconds (frames : Nat) (rate : Nat) : ℚ :=
  (frames : ℚ) / (rate : ℚ)

/-- Holds when `y` occurs immediately after `x` somewhere in the argument vector `cmd`
(e.g. the filter string as the argument of `-filter_complex`). -/
def adjacent_args (x y : String) (cmd : List String) : Prop :=
  (x, y) ∈ cmd.zip cmd.tail

instance (x y : String) (cmd : List String) : Decidable (adjacent_args x y cmd) := by
  unfold adjacent_args; infer_instance

/-! ## The urllib3 retry machinery configured by `make_session` (line 29)

`make_session` mounts `Retry(total=3, backoff_factor=0.3,
status_forcelist=(500, 502, 504))` on the session.  The fields and methods
below embed urllib3 1.26 `util/retry.py`; `Option Int` models a Python
`int`-or-`None` counter (the script never passes `False` for a counter, so
that Python value needs no representation). -/

/-- One entry of `Retry.history`; only the field the backoff computation
inspects is kept. -/
structure RequestHistory where
  redirect_location : Option String
deriving DecidableEq

structure Retry where
  total : Option Int
  connect : Option Int
  read : Option Int
  redirect : Option Int
  status : Option Int
  other : Option Int
  status_forcelist : List Nat
  allowed_methods : List String
  backoff_factor : ℚ
  raise_on_status : Bool
  respect_retry_after_header : Bool
  history : List RequestHistory
deriving DecidableEq

/-- Embeds `Retry.DEFAULT_ALLOWED_METHODS`: the idempotent methods; POST is absent. -/
def DEFAULT_ALLOWED_METHODS : List String :=
  ["HEAD", "GET", "PUT", "DELETE", "OPTIONS", "TRACE"]

/-- Embeds `Retry.RETRY_AFTER_STATUS_CODES`. -/
def RETRY_AFTER_STATUS_CODES : List Nat := [413, 429, 503]

/-- Embeds `Retry.DEFAULT_BACKOFF_MAX`. -/
def DEFAULT_BACKOFF_MAX : ℚ := 120

/-- The `Retry` object built at line 29 of the script, with urllib3's
constructor defaults for every argument the call leaves out. -/
def make_session_retries : Retry :=
  { total := some 3
    connect := none
    read := none
    redirect := none
    status := none
    other := none
    status_forcelist := [500, 502, 504]
    allowed_methods := DEFAULT_ALLOWED_METHODS
    backoff_factor := 3 / 10
    raise_on_status := true
    respect_retry_after_header := true
    history := [] }

/-- Python truthiness of an `int`-or-`None` counter. -/
def truthyCount : Option Int → Bool
  | none => false
  | some n => n != 0

/-- Python `str.upper`, applied per character (the method names compared here
are ASCII, where this agrees with `str.upper`). -/
def py_upper (s : String) : String := ⟨s.data.map Char.toUpper⟩

/-- Embeds `Retry._is_method_retryable`. -/
def Retry.is_method_retryable (r : Retry) (method : String) : Bool :=
  if !r.allowed_methods.isEmpty && !(r.allowed_methods.contains (py_upper method)) then
    false
  else
    true

/-- Embeds `Retry.is_retry`: is this method/status pair retryable? -/
def Retry.is_retry (r : Retry) (method : String) (status_code : Nat)
    (has_retry_after : Bool) : Bool :=
  if !(r.is_method_retryable method) then false
  else if !r.status_forcelist.isEmpty && r.status_forcelist.contains status_code then true
  else
    truthyCount r.total && r.respect_retry_after_header && has_retry_after
      && RETRY_AFTER_STATUS_CODES.contains status_code

/-- Embeds `Retry.is_exhausted`: Python's `filter(None, counts)` drops both `None`
and `0` before taking the minimum. -/
def Retry.is_exhausted (r : Retry) : Bool :=
  let counts :=
    ([r.total, r.connect, r.read, r.redirect, r.status, r.other].filterMap id).filter
      (fun n => n != 0)
  match counts with
  | [] => false
  | c :: cs => decide (cs.foldl min c < 0)

/-- Embeds `Retry.get_backoff_time`: zero before the first retry, then
`backoff_factor * 2 ^ (consecutive_errors - 1)` capped at the backoff max. -/
def Retry.get_backoff_time (r : Retry) : ℚ :=
  let consecutive_errors_len :=
    (r.history.reverse.takeWhile (fun h => h.redirect_location.isNone)).length
  if consecutive_errors_len ≤ 1 then 0
  else min DEFAULT_BACKOFF_MAX (r.backoff_factor * 2 ^ (consecutive_errors_len - 1))

/-- The transport-level failures `connectionpool.urlopen` catches and feeds to
`Retry.increment` as `error`: connection errors (`ConnectTimeoutError`,
`NewConnectionError`), read errors (`ReadTimeoutError`, `ProtocolError`), and
everything else (e.g. `SSLError`). -/
inductive TransportError where
  | connectError
  | readError
  | otherError
deriving DecidableEq

/-- What escapes the retry loop when it gives up: the original transport
error re-raised by `increment`, or `MaxRetryError` once the counters are
exhausted. -/
inductive PoolFailure where
  | reraised (e : TransportError)
  | maxRetryError
deriving DecidableEq

/-- The response data the retry logic inspects. -/
structure HttpResponse where
  status : Nat
  redirect_location : Option String
  has_retry_after : Bool
deriving DecidableEq

/-- Tail of `Retry.increment`: the new object is returned unless it is
exhausted, in which case `MaxRetryError` is raised. -/
def Retry.finishIncrement (r' : Retry) : Except PoolFailure Retry :=
  if r'.is_exhausted then .error .maxRetryError else .ok r'

/-- Embeds `Retry.increment`: returns the decremented `Retry` or raises.  A read
error on a non-retryable method re-raises; any counter falling below zero
raises `MaxRetryError`. -/
def Retry.increment (r : Retry) (method : String) (response : Option HttpResponse)
    (error : Option TransportError) : Except PoolFailure Retry :=
  let total := r.total.map (· - 1)
  match error with
  | some .connectError =>
      Retry.finishIncrement
        { r with total := total, connect := r.connect.map (· - 1), history := r.history ++ [⟨none⟩] }
  | some .readError =>
      if !(r.is_method_retryable method) then .error (.reraised .readError)
      else
        Retry.finishIncrement
          { r with total := total, read := r.read.map (· - 1), history := r.history ++ [⟨none⟩] }
  | some .otherError =>
      Retry.finishIncrement
        { r with total := total, other := r.other.map (· - 1), history := r.history ++ [⟨none⟩] }
  | none =>
      match response with
      | some resp =>
          match resp.redirect_location with
          | some loc =>
              Retry.finishIncrement
                { r with total := total, redirect := r.redirect.map (· - 1), history := r.history ++ [⟨some loc⟩] }
          | none =>
              Retry.finishIncrement
                { r with total := total, status := r.status.map (· - 1), history := r.history ++ [⟨none⟩] }
      | none =>
          Retry.finishIncrement { r with total := total, history := r.history ++ [⟨none⟩] }

/-- What the network does on each successive attempt of one logical request. -/
inductive AttemptOutcome where
  | failure (e : TransportError)
  | response (resp : HttpResponse)
deriving DecidableEq

instance {ε α : Type _} [DecidableEq ε] [DecidableEq α] : DecidableEq (Except ε α) := fun a b =>
  match a, b with
  | .ok x, .ok y => if h : x = y then isTrue (h ▸ rfl) else isFalse (by simp [h])
  | .ok _, .error _ => isFalse (by simp)
  | .error _, .ok _ => isFalse (by simp)
  | .error x, .error y => if h : x = y then isTrue (h ▸ rfl) else isFalse (by simp [h])

/-- Observable summary of one run of the retry loop: its final result, how
many attempts were issued, and the backoff sleeps between them. -/
structure UrlopenRun where
  result : Except PoolFailure HttpResponse
  attempts : Nat
  sleeps : List ℚ
deriving DecidableEq

/-- The retry loop of `HTTPConnectionPool.urlopen`, driven by a script of
attempt outcomes (requests' `HTTPAdapter.send` calls it with
`redirect=False`, so the redirect-following branch is never taken; a
`Retry-After` sleep is subsumed in the recorded backoff since this client's
POSTs are never status-retried).  An empty outcome script yields
`maxRetryError` with zero attempts; every claim drives the loop with a
script at least as long as the attempts it allows. -/
def urlopen (method : String) (r : Retry) : List AttemptOutcome → UrlopenRun
  | [] => ⟨.error .maxRetryError, 0, []⟩
  | o :: rest =>
    match o with
    | .failure e =>
        match r.increment method none (some e) with
        | .error ex => ⟨.error ex, 1, []⟩
        | .ok r' =>
            let run := urlopen method r' rest
            ⟨run.result, run.attempts + 1, r'.get_backoff_time :: run.sleeps⟩
    | .response resp =>
        if r.is_retry method resp.status resp.has_retry_after then
          match r.increment method (some resp) none with
          | .error ex =>
              if r.raise_on_status then ⟨.error ex, 1, []⟩ else ⟨.ok resp, 1, []⟩
          | .ok r' =>
              let run := urlopen method r' rest
              ⟨run.result, run.attempts + 1, r'.get_backoff_time :: run.sleeps⟩
        else ⟨.ok resp, 1, []⟩

/-- Both VOICEVOX calls (`voicevox_audio_query`, `voicevox_synthesis`) go
through `session.post`. -/
def synthesis_client_method : String := "POST"

/-! ## The orchestrator `main` (lines 101-142) -/

/-- The Python exceptions the run can surface. -/
inductive PyExc where
  | requestException
  | waveError
  | runtimeError
deriving DecidableEq

/-- The parsed CLI arguments (argparse, lines 102-110). -/
structure Args where
  topic : String
  voice_id : Int
  voicevox_host : String
  voicevox_port : Int
  background : String
  char : Option String
  out : String

/-- The environment one run observes: filesystem existence, `shutil.which`,
the outcomes of the two HTTP calls (after `raise_for_status`), the temp-file
name, the WAV header the `wave` module would read (frames, rate), and the
encoder subprocess's return code. -/
structure World where
  bgExists : Bool
  charExists : String → Bool
  which_ffmpeg : Option String
  audio_query_outcome : Except PyExc Unit
  synthesis_outcome : Except PyExc (List Nat)
  tmp_wav_name : String
  wav_header : Except PyExc (Nat × Nat)
  ffmpeg_returncode : Int

/-- The observable side effects of a run, in order. -/
inductive Event where
  | httpRequest (url : String)
  | logError
  | logWarning
  | logInfo
  | runProcess (cmd : List String)
  | logGenerated (out : String)
deriving DecidableEq

/-- URL construction of the two client functions (lines 34 and 41). -/
def request_url (host : String) (port : Int) (endpoint : String) : String :=
  "http://" ++ host ++ ":" ++ toString port ++ endpoint

/-- Line 115: `char_path = Path(args.char) if args.char else None`; the empty
string is falsy in Python, so `--char ""` resolves to `None`. -/
def resolved_char_path (char_arg : Option String) : Option String :=
  match char_arg with
  | some s => if s = "" then none else some s
  | none => none

/-- Embeds `run_ffmpeg` (lines 92-98): logs, runs the subprocess, raises
`RuntimeError` on a non-zero return code. -/
def run_ffmpeg (returncode : Int) (cmd : List String) : Except PyExc Unit × List Event :=
  if returncode = 0 then
    (.ok (), [.logInfo, .runProcess cmd, .logInfo])
  else
    (.error .runtimeError, [.logInfo, .runProcess cmd, .logError])

/-- Embeds `main` (lines 101-142): returns Python's `main()` value on a normal
return (`Except.ok code`) or the uncaught exception (`Except.error e`),
paired with the ordered trace of side effects. -/
def main (a : Args) (w : World) : Except PyExc Nat × List Event :=
  if !w.bgExists then
    (.ok 2, [.logError])
  else
    let char_path := resolved_char_path a.char
    if (match char_path with | some c => !w.charExists c | none => false) then
      (.ok 2, [.logError])
    else
      match w.which_ffmpeg with
      | none => (.ok 3, [.logError])
      | some ffmpeg_cmd =>
          let aq_url := request_url a.voicevox_host a.voicevox_port "/audio_query"
          match w.audio_query_outcome with
          | .error _ => (.ok 4, [.httpRequest aq_url, .logError])
          | .ok _ =>
              let syn_url := request_url a.voicevox_host a.voicevox_port "/synthesis"
              match w.synthesis_outcome with
              | .error _ => (.ok 4, [.httpRequest aq_url, .httpRequest syn_url, .logError])
              | .ok _ =>
                  let audio_path := w.tmp_wav_name
                  let ev0 : List Event := [.httpRequest aq_url, .httpRequest syn_url, .logInfo]
                  let probe_events : List Event :=
                    match w.wav_header with
                    | .ok (_, rate) => if rate = 0 then [.logWarning] else [.logInfo]
                    | .error _ => [.logWarning]
                  let out_path := a.out
                  let cmd := build_ffmpeg_cmd ffmpeg_cmd a.background audio_path out_path char_path
                  let r := run_ffmpeg w.ffmpeg_returncode cmd
                  let events := ev0 ++ probe_events ++ r.2 ++ [.logGenerated out_path]
                  match r.1 with
                  | .ok _ => (.ok 0, events)
                  | .error e => (.error e, events)

/-- The process exit code `sys.exit(main())` produces: `main`'s return value,
or CPython's exit code 1 for an uncaught exception. -/
def process_exit_code : Except PyExc Nat → Nat
  | .ok n => n
  | .error _ => 1

/-- The outcome as the spec's exit-code table sees it: `some code` for a
normal return, `none` for an uncaught error. -/
def observed_outcome : Except PyExc Nat → Option Nat
  | .ok n => some n
  | .error _ => none

/-- Success of an `Except` as a boolean. -/
def exc_ok {ε α : Type} : Except ε α → Bool
  | .ok _ => true
  | .error _ => false

/-- Both input files named on the command line exist (the background, and the
resolved character overlay when one is given). -/
def inputs_ok (a : Args) (w : World) : Bool :=
  w.bgExists &&
    (match resolved_char_path a.char with
     | some c => w.charExists c
     | none => true)

/-- The run gets past input validation, encoder lookup and both HTTP calls,
i.e. it reaches the duration probe and the encoding step. -/
def reached_probe (a : Args) (w : World) : Bool :=
  inputs_ok a w && w.which_ffmpeg.isSome
    && exc_ok w.audio_query_outcome && exc_ok w.synthesis_outcome

/-- The URLs of the HTTP requests a trace contains. -/
def http_requests (evs : List Event) : List String :=
  evs.filterMap (fun e =>
    match e with
    | .httpRequest u => some u
    | _ => none)

/-- The spec's exit-code table (section 4.6 / 6 of the spec), written from
its words for comparison with `main`: 2 for a missing input file, 3 when no
encoder is found, 4 on synthesis failure, 0 on success, and an uncaught
error (`none`) otherwise. -/
def spec_exit_outcome (a : Args) (w : World) : Option Nat :=
  if !inputs_ok a w then some 2
  else if w.which_ffmpeg.isNone then some 3
  else if !(exc_ok w.audio_query_outcome && exc_ok w.synthesis_outcome) then some 4
  else if w.ffmpeg_returncode = 0 then some 0
  else none

/-! ## Theorems -/

/-- C4: the argument sequence produced by `build_ffmpeg_cmd` carries the
compositing filter (the argument following `-filter_complex`, which pins the
overlay 10 px from the bottom-right edges and converts to the `yuv420p`
pixel format) iff an overlay path is provided; when one is provided the
overlay is a second `-i` input; and the plain `-vf format=yuv420p`
pixel-format conversion is applied iff no overlay is provided. -/
theorem build_cmd_overlay_iff (f bg audio out : String) (ch : Option String) :
    (adjacent_args "-filter_complex" overlay_filter (build_ffmpeg_cmd f bg audio out ch)
        ↔ ch.isSome = true)
    ∧ (∀ c, ch = some c → adjacent_args "-i" c (build_ffmpeg_cmd f bg audio out ch))
    ∧ (adjacent_args "-vf" "format=yuv420p" (build_ffmpeg_cmd f bg audio out ch)
        ↔ ch = none)
    ∧ overlay_filter = "[0:v][1:v] overlay=W-w-10:H-h-10" ++ ",format=yuv420p" := by
  cases ch with
  | none => simp [adjacent_args, build_ffmpeg_cmd, overlay_filter]
  | some c => simp [adjacent_args, build_ffmpeg_cmd, overlay_filter]

/-- C4 witness at concrete inputs. -/
theorem build_cmd_overlay_iff_witness :
    adjacent_args "-i" "char.png"
      (build_ffmpeg_cmd "/usr/bin/ffmpeg" "bg.png" "a.wav" "out/result.mp4" (some "char.png")) :=
  (build_cmd_overlay_iff "/usr/bin/ffmpeg" "bg.png" "a.wav" "out/result.mp4"
      (some "char.png")).2.1 "char.png" rfl

/-- C5: every argument sequence `build_ffmpeg_cmd` produces contains the
shortest-stream truncation option `-shortest` and the overwrite-forcing
option `-y`. -/
theorem build_cmd_shortest_and_overwrite (f bg audio out : String) (ch : Option String) :
    "-shortest" ∈ build_ffmpeg_cmd f bg audio out ch
    ∧ "-y" ∈ build_ffmpeg_cmd f bg audio out ch := by
  cases ch <;> simp [build_ffmpeg_cmd]

/-- C6: `build_ffmpeg_cmd` is deterministic and pure: two calls with
componentwise-identical encoder path, background path, audio path, output
path and overlay path return identical argument sequences (in this
embedding the builder is a pure function of exactly these five inputs). -/
theorem build_cmd_deterministic
    (f₁ f₂ bg₁ bg₂ audio₁ audio₂ out₁ out₂ : String) (ch₁ ch₂ : Option String)
    (hf : f₁ = f₂) (hbg : bg₁ = bg₂) (haudio : audio₁ = audio₂)
    (hout : out₁ = out₂) (hch : ch₁ = ch₂) :
    build_ffmpeg_cmd f₁ bg₁ audio₁ out₁ ch₁ = build_ffmpeg_cmd f₂ bg₂ audio₂ out₂ ch₂ := by
  rw [hf, hbg, haudio, hout, hch]

/-- C6 witness at concrete inputs. -/
theorem build_cmd_deterministic_witness :
    build_ffmpeg_cmd "ffmpeg" "bg.png" "a.wav" "o.mp4" none
      = build_ffmpeg_cmd "ffmpeg" "bg.png" "a.wav" "o.mp4" none :=
  build_cmd_deterministic "ffmpeg" "ffmpeg" "bg.png" "bg.png" "a.wav" "a.wav"
    "o.mp4" "o.mp4" none none rfl rfl rfl rfl rfl

/-- C7: the duration probe returns frame count divided by sample rate
(exactly representable for the spec's sample points, so the rational value
is the float the code returns); at 44100 frames / 44100 Hz it is 1 and at
22050 frames / 44100 Hz it is 1/2. -/
theorem wav_duration_values :
    (∀ frames rate : Nat, get_wav_duration_seconds frames rate = (frames : ℚ) / (rate : ℚ))
    ∧ get_wav_duration_seconds 44100 44100 = 1
    ∧ get_wav_duration_seconds 22050 44100 = 1 / 2 := by
  refine ⟨fun frames rate => rfl, ?_, ?_⟩ <;> norm_num [get_wav_duration_seconds]

/-- C1 counterexample: with the session's configuration, a POST receiving
HTTP 500 is not a retry condition (the default method allowlist excludes
POST) and is returned after exactly one attempt, and a persistently failing
request is attempted 4 times — not 3 — before `MaxRetryError`
(`total=3` bounds retries, not attempts). -/
theorem retry_policy_counterexample :
    make_session_retries.is_retry synthesis_client_method 500 false = false
    ∧ (urlopen synthesis_client_method make_session_retries
        [.response ⟨500, none, false⟩]).result = .ok ⟨500, none, false⟩
    ∧ (urlopen synthesis_client_method make_session_retries
        [.response ⟨500, none, false⟩]).attempts = 1
    ∧ (urlopen synthesis_client_method make_session_retries
        (List.replicate 6 (.failure .connectError))).attempts = 4 := by
  exact ⟨by decide, by decide, by decide, by decide⟩

/-- C1 amended: the shared policy allows up to 3 retries (4 total attempts)
with backoff sleeps 0, 0.6 and 1.2 time units before the successive retries;
because the default urllib3 method allowlist excludes POST, the client's
POST requests are never retried on any HTTP status — 500/502/504 are
returned on the first attempt exactly like a 400 — and read errors re-raise
immediately; only connection-level and miscellaneous transport failures are
retried. -/
theorem retry_policy_amended :
    (∀ (s : Nat) (rl : Option String) (hra : Bool) (rest : List AttemptOutcome),
        urlopen synthesis_client_method make_session_retries
          (.response ⟨s, rl, hra⟩ :: rest) = ⟨.ok ⟨s, rl, hra⟩, 1, []⟩)
    ∧ (urlopen synthesis_client_method make_session_retries
        (List.replicate 4 (.failure .connectError))).result = .error .maxRetryError
    ∧ (urlopen synthesis_client_method make_session_retries
        (List.replicate 4 (.failure .connectError))).attempts = 4
    ∧ (urlopen synthesis_client_method make_session_retries
        (List.replicate 4 (.failure .connectError))).sleeps = [0, 3/5, 6/5]
    ∧ (urlopen synthesis_client_method make_session_retries
        [.failure .connectError, .response ⟨200, none, false⟩]).result = .ok ⟨200, none, false⟩
    ∧ (urlopen synthesis_client_method make_session_retries
        [.failure .connectError, .response ⟨200, none, false⟩]).attempts = 2
    ∧ (urlopen synthesis_client_method make_session_retries
        [.failure .otherError, .response ⟨200, none, false⟩]).attempts = 2
    ∧ (urlopen synthesis_client_method make_session_retries [.failure .readError]).result
        = .error (.reraised .readError) := by
  have hm : make_session_retries.is_method_retryable synthesis_client_method = false := by decide
  refine ⟨fun s rl hra rest => ?_, by decide, by decide, ?_, by decide, by decide,
    by decide, by decide⟩
  · simp [urlopen, Retry.is_retry, hm]
  · simp [urlopen, Retry.increment, Retry.finishIncrement, Retry.is_exhausted,
      Retry.get_backoff_time, make_session_retries, truthyCount, DEFAULT_BACKOFF_MAX]
    norm_num

/-- C2: `main`'s outcome agrees with the spec's exit-code table in every
environment — 2 when the background or the given overlay file is missing, 3
when no encoder executable is found, 4 when synthesis fails, 0 on success —
and every other failure is an uncaught error whose process exit code (1) is
non-zero. -/
theorem main_exit_codes (a : Args) (w : World) :
    observed_outcome (main a w).1 = spec_exit_outcome a w
    ∧ process_exit_code (main a w).1 = (spec_exit_outcome a w).getD 1 := by
  obtain ⟨bg, charEx, which, aq, syn, tmp, hdr, rc⟩ := w
  cases bg with
  | false =>
      simp [main, spec_exit_outcome, inputs_ok, observed_outcome, process_exit_code]
  | true =>
      cases hc : resolved_char_path a.char with
      | some c =>
          cases hce : charEx c <;> cases which <;> cases aq <;> cases syn <;>
            by_cases hrc : rc = 0 <;>
              simp_all [main, spec_exit_outcome, inputs_ok, observed_outcome,
                process_exit_code, exc_ok, run_ffmpeg]
      | none =>
          cases which <;> cases aq <;> cases syn <;>
            by_cases hrc : rc = 0 <;>
              simp_all [main, spec_exit_outcome, inputs_ok, observed_outcome,
                process_exit_code, exc_ok, run_ffmpeg]

/-- C3: when the background file is missing, `main` returns 2 having issued
no HTTP request; when the input files exist but no encoder executable is on
the search path, `main` returns 3 having issued no HTTP request. -/
theorem main_fail_fast (a : Args) (w : World) :
    (w.bgExists = false →
        (main a w).1 = .ok 2 ∧ http_requests (main a w).2 = [])
    ∧ (inputs_ok a w = true → w.which_ffmpeg = none →
        (main a w).1 = .ok 3 ∧ http_requests (main a w).2 = []) := by
  obtain ⟨bg, charEx, which, aq, syn, tmp, hdr, rc⟩ := w
  constructor
  · intro h
    subst h
    simp [main, http_requests]
  · intro h1 h2
    cases bg with
    | false => simp [inputs_ok] at h1
    | true =>
        cases hc : resolved_char_path a.char with
        | some c =>
            have : charEx c = true := by
              simp [inputs_ok, hc] at h1; exact h1
            simp_all [main, http_requests]
        | none => simp_all [main, http_requests]

/-- C3 witness: a missing background exits 2 with no HTTP requests; a missing
encoder (with inputs present) exits 3 with no HTTP requests. -/
theorem main_fail_fast_witness :
    ((main ⟨"t", 1, "127.0.0.1", 50021, "bg.png", none, "out/result.mp4"⟩
        ⟨false, fun _ => true, some "ffmpeg", .ok (), .ok [], "tmp.wav", .ok (44100, 44100), 0⟩).1
          = .ok 2
      ∧ http_requests (main ⟨"t", 1, "127.0.0.1", 50021, "bg.png", none, "out/result.mp4"⟩
        ⟨false, fun _ => true, some "ffmpeg", .ok (), .ok [], "tmp.wav", .ok (44100, 44100), 0⟩).2
          = [])
    ∧ ((main ⟨"t", 1, "127.0.0.1", 50021, "bg.png", none, "out/result.mp4"⟩
        ⟨true, fun _ => true, none, .ok (), .ok [], "tmp.wav", .ok (44100, 44100), 0⟩).1
          = .ok 3
      ∧ http_requests (main ⟨"t", 1, "127.0.0.1", 50021, "bg.png", none, "out/result.mp4"⟩
        ⟨true, fun _ => true, none, .ok (), .ok [], "tmp.wav", .ok (44100, 44100), 0⟩).2
          = []) :=
  ⟨(main_fail_fast _ _).1 rfl, (main_fail_fast _ _).2 rfl rfl⟩

/-- C8: a duration-probe failure is non-fatal: the outcome of `main` (exit
code or uncaught error) never depends on the WAV header the probe reads, and
in a run that reaches the probe with an invalid WAV container the warning is
logged and the pipeline still reaches the encoder invocation. -/
theorem probe_failure_nonfatal (a : Args) (w : World) (h₁ h₂ : Except PyExc (Nat × Nat)) :
    (main a { w with wav_header := h₁ }).1 = (main a { w with wav_header := h₂ }).1
    ∧ (reached_probe a w = true → ∀ e, w.wav_header = .error e →
        Event.logWarning ∈ (main a w).2 ∧ ∃ c, Event.runProcess c ∈ (main a w).2) := by
  obtain ⟨bg, charEx, which, aq, syn, tmp, hdr, rc⟩ := w
  constructor
  · cases bg with
    | false => simp [main]
    | true =>
        cases hc : resolved_char_path a.char with
        | some c =>
            cases hce : charEx c <;> cases which <;> cases aq <;> cases syn <;>
              by_cases hrc : rc = 0 <;> simp_all [main, run_ffmpeg]
        | none =>
            cases which <;> cases aq <;> cases syn <;>
              by_cases hrc : rc = 0 <;> simp_all [main, run_ffmpeg]
  · intro h e he
    subst he
    cases bg with
    | false => simp [reached_probe, inputs_ok] at h
    | true =>
        cases hc : resolved_char_path a.char with
        | some c =>
            cases hce : charEx c <;> cases which <;> cases aq <;> cases syn <;>
              by_cases hrc : rc = 0 <;>
                simp_all [main, run_ffmpeg, reached_probe, inputs_ok, exc_ok]
        | none =>
            cases which <;> cases aq <;> cases syn <;>
              by_cases hrc : rc = 0 <;>
                simp_all [main, run_ffmpeg, reached_probe, inputs_ok, exc_ok]

/-- C8 witness: a run reaching the probe with an invalid WAV header. -/
theorem probe_failure_nonfatal_witness :
    ((main ⟨"t", 1, "127.0.0.1", 50021, "bg.png", none, "out/result.mp4"⟩
        ⟨true, fun _ => true, some "ffmpeg", .ok (), .ok [], "tmp.wav", .error .waveError, 0⟩).1
      = (main ⟨"t", 1, "127.0.0.1", 50021, "bg.png", none, "out/result.mp4"⟩
        ⟨true, fun _ => true, some "ffmpeg", .ok (), .ok [], "tmp.wav", .ok (44100, 44100), 0⟩).1)
    ∧ (Event.logWarning
        ∈ (main ⟨"t", 1, "127.0.0.1", 50021, "bg.png", none, "out/result.mp4"⟩
          ⟨true, fun _ => true, some "ffmpeg", .ok (), .ok [], "tmp.wav", .error .waveError, 0⟩).2
      ∧ ∃ c, Event.runProcess c
        ∈ (main ⟨"t", 1, "127.0.0.1", 50021, "bg.png", none, "out/result.mp4"⟩
          ⟨true, fun _ => true, some "ffmpeg", .ok (), .ok [], "tmp.wav", .error .waveError, 0⟩).2) :=
  ⟨(probe_failure_nonfatal ⟨"t", 1, "127.0.0.1", 50021, "bg.png", none, "out/result.mp4"⟩
      ⟨true, fun _ => true, some "ffmpeg", .ok (), .ok [], "tmp.wav", .error .waveError, 0⟩
      (.error .waveError) (.ok (44100, 44100))).1,
   (probe_failure_nonfatal ⟨"t", 1, "127.0.0.1", 50021, "bg.png", none, "out/result.mp4"⟩
      ⟨true, fun _ => true, some "ffmpeg", .ok (), .ok [], "tmp.wav", .error .waveError, 0⟩
      (.error .waveError) (.ok (44100, 44100))).2 rfl .waveError rfl⟩

/-- C9: once the run reaches the encoding step (equivalently, once it gets
past synthesis — the probe cannot stop it), the trace logs the intended
output path exactly once before `main` returns, whether the encoder
invocation succeeds or fails. -/
theorem output_path_logged_once (a : Args) (w : World)
    (h : reached_probe a w = true) :
    (main a w).2.count (Event.logGenerated a.out) = 1 := by
  obtain ⟨bg, charEx, which, aq, syn, tmp, hdr, rc⟩ := w
  cases bg with
  | false => simp [reached_probe, inputs_ok] at h
  | true =>
      cases hc : resolved_char_path a.char with
      | some c =>
          cases hce : charEx c <;> cases which <;> cases aq <;> cases syn <;>
            rcases hdr with _ | ⟨fr, rate⟩ <;>
              (try by_cases hr : rate = 0) <;> by_cases hrc : rc = 0 <;>
                simp_all [main, run_ffmpeg, reached_probe, inputs_ok, exc_ok]
      | none =>
          cases which <;> cases aq <;> cases syn <;>
            rcases hdr with _ | ⟨fr, rate⟩ <;>
              (try by_cases hr : rate = 0) <;> by_cases hrc : rc = 0 <;>
                simp_all [main, run_ffmpeg, reached_probe, inputs_ok, exc_ok]

/-- C9 witness: a run whose encoder invocation fails still logs the output
path exactly once. -/
theorem output_path_logged_once_witness :
    (main ⟨"t", 1, "127.0.0.1", 50021, "bg.png", none, "out/result.mp4"⟩
        ⟨true, fun _ => true, some "ffmpeg", .ok (), .ok [], "tmp.wav", .ok (44100, 44100), 1⟩).2.count
      (Event.logGenerated "out/result.mp4") = 1 :=
  output_path_logged_once ⟨"t", 1, "127.0.0.1", 50021, "bg.png", none, "out/result.mp4"⟩
    ⟨true, fun _ => true, some "ffmpeg", .ok (), .ok [], "tmp.wav", .ok (44100, 44100), 1⟩ rfl

/-- C10: `--char ""` behaves exactly like omitting the overlay: the whole run
(outcome and trace, hence no existence check and no exit 2 for it) equals the
run with no `--char`, and the encoder command built from the resolved overlay
contains no compositing filter. -/
theorem empty_char_like_none (a : Args) (w : World) (h : a.char = some "")
    (f bg audio out : String) :
    main a w = main { a with char := none } w
    ∧ ¬ adjacent_args "-filter_complex" overlay_filter
        (build_ffmpeg_cmd f bg audio out (resolved_char_path a.char)) := by
  have hr : resolved_char_path a.char = none := by simp [resolved_char_path, h]
  have hn : resolved_char_path (none : Option String) = none := rfl
  constructor
  · simp [main, hr, hn]
  · simp [hr, adjacent_args, build_ffmpeg_cmd, overlay_filter]

/-- C10 witness at concrete inputs. -/
theorem empty_char_like_none_witness :
    main ⟨"t", 1, "127.0.0.1", 50021, "bg.png", some "", "out/result.mp4"⟩
      ⟨true, fun _ => false, some "ffmpeg", .ok (), .ok [], "tmp.wav", .ok (44100, 44100), 0⟩
    = main ⟨"t", 1, "127.0.0.1", 50021, "bg.png", none, "out/result.mp4"⟩
      ⟨true, fun _ => false, some "ffmpeg", .ok (), .ok [], "tmp.wav", .ok (44100, 44100), 0⟩ :=
  (empty_char_like_none ⟨"t", 1, "127.0.0.1", 50021, "bg.png", some "", "out/result.mp4"⟩
    ⟨true, fun _ => false, some "ffmpeg", .ok (), .ok [], "tmp.wav", .ok (44100, 44100), 0⟩
    rfl "ffmpeg" "bg.png" "tmp.wav" "out/result.mp4").1

end Yukkuri
